import Mathlib

/-!
Shallow embedding of the CI/CD log-analysis script (scripts directory of the
repository).  The script resolves log text from a file, a literal string or a
built-in simulated sample, builds a two-message prompt, calls a remote
chat-completion service, and routes narration and the final suggestion between
standard output and standard error depending on a quiet flag.

External effects are made explicit parameters:
* the outcome of the one file read is a `ReadResult`;
* the outcome of the remote chat-completion call is a `RemoteOutcome`
  (per the collaborator interface, a successful call carries the list of
  choice message contents; the classified failures carry their description);
* the credential read from the environment is an `Option String`.

Every write performed through `print` / `eprint` (the script's `printer`)
becomes an event `(stream, text)` in an `Output` list, one event per call.
-/

namespace LogParser

/-- The two process output streams. -/
inductive StdStream where
  | stdout
  | stderr
deriving DecidableEq, Repr

/-- One narration or result write: the stream it goes to and the text printed. -/
abbrev OutputEvent := StdStream × String

/-- The sequence of writes a run performs, in order. -/
abbrev Output := List OutputEvent

/-- Stream chosen by `printer = eprint if quiet else print`. -/
def printerStream (quiet : Bool) : StdStream :=
  if quiet then StdStream.stderr else StdStream.stdout

/-- Python truthiness of an optional string: `None` and `""` are falsy. -/
def optStrTruthy : Option String → Bool
  | none => false
  | some s => if s = "" then false else true

/-- One prompt message: a role (`"system"` or `"user"`) and its content. -/
structure ChatMessage where
  role : String
  content : String
deriving DecidableEq, Repr

/-- Outcome of the remote chat-completion call, as classified by the script's
exception handlers: a successful response (list of choice message contents),
an authentication failure, a rate-limit failure, a generic API failure
(status code, message, and printed description), or any other failure. -/
inductive RemoteOutcome where
  | success (choices : List String)
  | authError (text : String)
  | rateLimitError (text : String)
  | apiError (statusCode : Nat) (message : String) (text : String)
  | otherError (text : String)
deriving DecidableEq, Repr

/-- Outcome of opening and reading the log file: full content, a missing
file, or any other read failure (permission, encoding, ...) with its
description. -/
inductive ReadResult where
  | ok (content : String)
  | fileNotFound
  | readError (text : String)
deriving DecidableEq, Repr

/-- The fixed system instruction of the prompt. -/
def system_prompt : String :=
  "You are an expert CI/CD Pipeline Troubleshooting Assistant. Your goal is to analyze the provided logs, identify potential errors or causes of failure, and suggest concise, actionable troubleshooting steps.\n\nFocus on:\n- Identifying specific error messages.\n- Correlating errors with common root causes for technologies like Docker, Kubernetes, Terraform, GitHub Actions, and general application build/deployment issues.\n- Providing clear, step-by-step suggestions for remediation.\n- If possible, suggest commands to run or specific files to check.\n- If the log is unclear or too short, state that more information might be needed but still try to offer general advice based on any discernible information.\n- Keep your response focused on the technical problem and its solution.\n- Please format your suggestions using Markdown. Use bullet points for actionable steps.\n"

/-- Text of the user message before the log content (f-string part before the
interpolation). -/
def user_prompt_head : String :=
  "Here are the logs from a failed CI/CD pipeline step:\n\n```\n"

/-- Text of the user message after the log content (f-string part after the
interpolation). -/
def user_prompt_tail : String :=
  "\n```\n\nPlease analyze these logs and provide troubleshooting suggestions."

/-- Content of the user message: the log content wrapped in a fenced block
plus the fixed instruction sentence. -/
def user_prompt_content (log_content : String) : String :=
  user_prompt_head ++ log_content ++ user_prompt_tail

/-- The ordered message pair sent to the completion service. -/
def prompt_messages (log_content : String) : List ChatMessage :=
  [⟨"system", system_prompt⟩, ⟨"user", user_prompt_content log_content⟩]

/-- Fixed result for empty log content. -/
def empty_log_message : String :=
  "No specific suggestions: Log content was empty."

/-- Fixed result when the API key is missing. -/
def skipped_message : String :=
  "AI Analysis skipped: OpenAI API key not available."

/-- Fixed result for an authentication failure. -/
def auth_error_message : String :=
  "AI Analysis failed: Authentication error. Check your API key and organization ID."

/-- Fixed result for a rate-limit failure. -/
def rate_limit_message : String :=
  "AI Analysis failed: Rate limit exceeded. Please try again later or check your usage."

/-- Result for a generic API failure, embedding its status code and message. -/
def api_error_message (statusCode : Nat) (message : String) : String :=
  "AI Analysis failed: An API error occurred. Status Code: " ++
    (toString statusCode ++ (". Message: " ++ message))

/-- Result for any other unexpected failure, embedding its description. -/
def unexpected_error_message (text : String) : String :=
  "Could not get AI suggestion due to an unexpected error: " ++ text

/-- Result of `analyze_logs_with_ai`: the returned suggestion string, the
narration it printed, and the messages passed to the remote completion call
(`none` when the remote service was never invoked). -/
structure AnalyzeResult where
  suggestion : String
  output : Output
  sent : Option (List ChatMessage)
deriving DecidableEq, Repr

/-- Embedding of `analyze_logs_with_ai(log_content, api_key, quiet)`.  The
remote call's outcome is the explicit parameter `remote`.  An empty `choices`
list makes the first-choice subscript fail, which the final handler converts
to the unexpected-error message for `"list index out of range"`. -/
def analyze_logs_with_ai (log_content : String) (api_key : Option String)
    (quiet : Bool) (remote : RemoteOutcome) : AnalyzeResult :=
  let pr := printerStream quiet
  let header : Output := [(pr, "\n--- AI Log Analysis ---")]
  if log_content = "" then
    { suggestion := empty_log_message
      output := header ++ [(pr, "No log content provided for AI analysis.")]
      sent := none }
  else if optStrTruthy api_key = false then
    { suggestion := skipped_message
      output := header ++
        [(pr, "Error: OPENAI_API_KEY not provided. Cannot perform AI analysis.")]
      sent := none }
  else
    let received : Output :=
      [(pr, "Log content received by AI analyzer (first 500 chars):"),
       (pr, if log_content.length > 500
            then log_content.take 500 ++ "...\n"
            else log_content)]
    let sending : Output :=
      [(pr, "Sending request to OpenAI API with model: gpt-3.5-turbo")]
    let pre := header ++ received ++ sending
    let msgs := prompt_messages log_content
    match remote with
    | RemoteOutcome.success [] =>
        { suggestion := unexpected_error_message "list index out of range"
          output := pre ++
            [(pr, "An unexpected error occurred during AI analysis: list index out of range")]
          sent := some msgs }
    | RemoteOutcome.success (c :: _) =>
        { suggestion := c
          output := pre ++ [(pr, "AI Suggestion (from OpenAI API):"), (pr, c)]
          sent := some msgs }
    | RemoteOutcome.authError t =>
        { suggestion := auth_error_message
          output := pre ++ [(pr, "OpenAI API Authentication Error: " ++ t)]
          sent := some msgs }
    | RemoteOutcome.rateLimitError t =>
        { suggestion := rate_limit_message
          output := pre ++ [(pr, "OpenAI API Rate Limit Exceeded: " ++ t)]
          sent := some msgs }
    | RemoteOutcome.apiError code msg t =>
        { suggestion := api_error_message code msg
          output := pre ++ [(pr, "OpenAI API Error: " ++ t)]
          sent := some msgs }
    | RemoteOutcome.otherError t =>
        { suggestion := unexpected_error_message t
          output := pre ++
            [(pr, "An unexpected error occurred during AI analysis: " ++ t)]
          sent := some msgs }

/-- Embedding of `parse_log_file(file_path, quiet)`: returns the content read
(empty on any failure) and the narration printed. -/
def parse_log_file (file_path : String) (quiet : Bool) (res : ReadResult) :
    String × Output :=
  let pr := printerStream quiet
  let attempt : Output := [(pr, "Attempting to read log file: " ++ file_path)]
  match res with
  | ReadResult.ok content =>
      (content, attempt ++
        [(pr, "Successfully read " ++ (toString content.length ++
          (" characters from " ++ file_path)))])
  | ReadResult.fileNotFound =>
      ("", attempt ++ [(pr, "Error: Log file not found at " ++ file_path)])
  | ReadResult.readError t =>
      ("", attempt ++
        [(pr, "Error reading log file " ++ (file_path ++ (": " ++ t)))])

/-- Parsed command-line arguments (argparse defaults are `None`; a flag given
with an empty value yields `some ""`, which Python truthiness treats like
`None`). -/
structure Args where
  log_file : Option String
  log_string : Option String
  quiet : Bool
deriving DecidableEq, Repr

/-- External state of one run: the file-read outcome (used only when the
file branch is taken), the `OPENAI_API_KEY` environment variable, and the
remote call's outcome (used only when the remote call is made). -/
structure Env where
  fs : ReadResult
  api_key : Option String
  remote : RemoteOutcome
deriving DecidableEq, Repr

/-- The three-entry simulated sample, as serialized by `json.dumps(..., indent=2)`. -/
def simulated_log : String :=
  "[\n  \x7b\n    \"timestamp\": \"2023-10-27T10:00:00Z\",\n    \"level\": \"ERROR\",\n    \"message\": \"Failed to connect to database\",\n    \"service\": \"auth-service\"\n  \x7d,\n  \x7b\n    \"timestamp\": \"2023-10-27T10:00:05Z\",\n    \"level\": \"ERROR\",\n    \"message\": \"NullPointerException in UserServlet\",\n    \"service\": \"user-service\"\n  \x7d,\n  \x7b\n    \"timestamp\": \"2023-10-27T10:01:00Z\",\n    \"level\": \"WARN\",\n    \"message\": \"High latency detected for payment-gateway\",\n    \"service\": \"checkout-service\"\n  \x7d\n]"

/-- Log-content resolution of `main` (file, else literal string, else the
simulated sample), with the narration it prints. -/
def resolve_log_content (args : Args) (env : Env) : String × Output :=
  if optStrTruthy args.log_file then
    let p := args.log_file.getD ""
    let pre : Output :=
      if args.quiet then []
      else [(StdStream.stderr, "Log file argument provided: " ++ p)]
    let r := parse_log_file p args.quiet env.fs
    (r.1, pre ++ r.2)
  else if optStrTruthy args.log_string then
    let pre : Output :=
      if args.quiet then []
      else [(StdStream.stderr, "Log string argument provided.")]
    (args.log_string.getD "", pre)
  else
    let pre : Output :=
      if args.quiet then []
      else [(StdStream.stderr, "No log file or log string provided. Simulating some default error log for demonstration.")]
    let echo : Output :=
      if args.quiet then []
      else [(StdStream.stderr, "\nSimulated Log Data for AI Analysis:"),
            (StdStream.stderr, simulated_log)]
    (simulated_log, pre ++ echo)

/-- Result of one full run of `main`: everything printed, and the analyzer's
result when the analyzer was reached (`none` when `main` returned before
calling it). -/
structure MainResult where
  output : Output
  analyzed : Option AnalyzeResult
deriving DecidableEq, Repr

/-- Embedding of `main()`: resolve the log content, return early on empty
content (stdout error line when quiet, stderr narration otherwise), warn on a
missing key when not quiet, run the analyzer, and print the final suggestion
(bare on stdout when quiet; banner plus suggestion on stderr otherwise). -/
def main (args : Args) (env : Env) : MainResult :=
  let r := resolve_log_content args env
  let log_content_to_analyze := r.1
  if log_content_to_analyze = "" then
    { output := r.2 ++
        [if args.quiet
         then (StdStream.stdout, "Error: No log content available to analyze.")
         else (StdStream.stderr, "No log content available to analyze. Exiting.")]
      analyzed := none }
  else
    let warn : Output :=
      if optStrTruthy env.api_key = false ∧ args.quiet = false then
        [(StdStream.stderr, "Warning: OPENAI_API_KEY environment variable not set. AI analysis will be skipped or will fail.")]
      else []
    let a := analyze_logs_with_ai log_content_to_analyze env.api_key args.quiet env.remote
    let fin : Output :=
      if args.quiet then [(StdStream.stdout, a.suggestion)]
      else [(StdStream.stderr, "\n--- Final Output ---"),
            (StdStream.stderr, "AI-Generated Suggestion:"),
            (StdStream.stderr, a.suggestion)]
    { output := r.2 ++ warn ++ a.output ++ fin
      analyzed := some a }

/-- Texts of the events an output sends to standard output, in order. -/
def stdoutLines : Output → List String
  | [] => []
  | (StdStream.stdout, s) :: rest => s :: stdoutLines rest
  | (StdStream.stderr, _) :: rest => stdoutLines rest

/-- Character of a string at an index (space when out of range). -/
def strCharAt (s : String) (n : Nat) : Char :=
  s.data.getD n ' '

lemma stdoutLines_append (a b : Output) :
    stdoutLines (a ++ b) = stdoutLines a ++ stdoutLines b := by
  induction a with
  | nil => rfl
  | cons ev rest ih =>
      obtain ⟨st, s⟩ := ev
      cases st <;> simp [stdoutLines, ih]

lemma optStrTruthy_some_of_ne (s : String) (h : s ≠ "") :
    optStrTruthy (some s) = true := by
  simp [optStrTruthy, h]

lemma strCharAt_append_left (p s : String) (n : Nat) (h : n < p.length) :
    strCharAt (p ++ s) n = strCharAt p n := by
  unfold strCharAt
  rw [String.data_append]
  exact List.getD_append _ _ _ _ h

lemma ne_of_strCharAt_ne (s t : String) (n : Nat)
    (h : strCharAt s n ≠ strCharAt t n) : s ≠ t :=
  fun e => h (by rw [e])

lemma analyze_quiet_stdoutLines (log : String) (key : Option String)
    (remote : RemoteOutcome) :
    stdoutLines (analyze_logs_with_ai log key true remote).output = [] := by
  unfold analyze_logs_with_ai
  by_cases h1 : log = ""
  · simp [h1, printerStream, stdoutLines]
  · by_cases h2 : optStrTruthy key = false
    · simp [h1, h2, printerStream, stdoutLines]
    · cases remote with
      | success choices =>
          cases choices <;>
            simp [h1, h2, printerStream, stdoutLines, stdoutLines_append]
      | authError t => simp [h1, h2, printerStream, stdoutLines, stdoutLines_append]
      | rateLimitError t => simp [h1, h2, printerStream, stdoutLines, stdoutLines_append]
      | apiError c m t => simp [h1, h2, printerStream, stdoutLines, stdoutLines_append]
      | otherError t => simp [h1, h2, printerStream, stdoutLines, stdoutLines_append]

lemma resolve_quiet_stdoutLines (args : Args) (env : Env)
    (h : args.quiet = true) :
    stdoutLines (resolve_log_content args env).2 = [] := by
  unfold resolve_log_content
  by_cases h1 : optStrTruthy args.log_file = true
  · cases env.fs <;>
      simp [h1, h, parse_log_file, printerStream, stdoutLines, stdoutLines_append]
  · by_cases h2 : optStrTruthy args.log_string = true <;>
      simp [h1, h2, h, stdoutLines, stdoutLines_append]

lemma analyze_verbose_header_mem (log : String) (key : Option String)
    (remote : RemoteOutcome) (hlog : log ≠ "") :
    (StdStream.stdout, "\n--- AI Log Analysis ---") ∈
      (analyze_logs_with_ai log key false remote).output := by
  unfold analyze_logs_with_ai
  by_cases h2 : optStrTruthy key = false
  · simp [hlog, h2, printerStream]
  · cases remote with
    | success choices => cases choices <;> simp [hlog, h2, printerStream]
    | authError t => simp [hlog, h2, printerStream]
    | rateLimitError t => simp [hlog, h2, printerStream]
    | apiError c m t => simp [hlog, h2, printerStream]
    | otherError t => simp [hlog, h2, printerStream]

lemma resolve_log_content_file_fst (args : Args) (env : Env) (p : String)
    (hp : args.log_file = some p) (hne : p ≠ "") :
    (resolve_log_content args env).1 = (parse_log_file p args.quiet env.fs).1 := by
  unfold resolve_log_content
  simp [hp, optStrTruthy_some_of_ne p hne]

/-- C2: for every empty log text input, `analyze_logs_with_ai` returns exactly
the fixed empty-content message and never invokes the remote completion
service, whatever the API key, quiet flag, and remote outcome. -/
theorem empty_log_fixed_message_and_no_call (key : Option String) (quiet : Bool)
    (remote : RemoteOutcome) :
    (analyze_logs_with_ai "" key quiet remote).suggestion = empty_log_message ∧
    (analyze_logs_with_ai "" key quiet remote).sent = none := by
  constructor <;> rfl

/-- C3: for every non-empty log text with a missing credential (absent or
empty), `analyze_logs_with_ai` returns exactly the fixed skipped message and
never invokes the remote completion service. -/
theorem missing_key_fixed_message_and_no_call (log : String) (key : Option String)
    (quiet : Bool) (remote : RemoteOutcome)
    (hlog : log ≠ "") (hkey : optStrTruthy key = false) :
    (analyze_logs_with_ai log key quiet remote).suggestion = skipped_message ∧
    (analyze_logs_with_ai log key quiet remote).sent = none := by
  unfold analyze_logs_with_ai
  simp [hlog, hkey]

/-- Witness for C3 at log text "boom" with an absent key. -/
theorem missing_key_fixed_message_and_no_call_witness :
    (analyze_logs_with_ai "boom" none true (RemoteOutcome.success [])).suggestion =
      skipped_message ∧
    (analyze_logs_with_ai "boom" none true (RemoteOutcome.success [])).sent = none :=
  missing_key_fixed_message_and_no_call "boom" none true (RemoteOutcome.success [])
    (by decide) rfl

/-- C4: `parse_log_file` never raises past its own boundary: every read
failure yields the empty string plus a narration message after the attempt
line, and a run of `main` whose file read fails proceeds as the empty-content
case (the analyzer is never reached). -/
theorem parse_log_file_failure_returns_empty (p : String) (quiet : Bool)
    (res : ReadResult) (h : ∀ c, res ≠ ReadResult.ok c) :
    (parse_log_file p quiet res).1 = "" ∧
    (∃ m, (parse_log_file p quiet res).2 =
      [(printerStream quiet, "Attempting to read log file: " ++ p),
       (printerStream quiet, m)]) ∧
    (∀ args env, args.log_file = some p → p ≠ "" → env.fs = res →
      (main args env).analyzed = none) := by
  have main_part : (parse_log_file p quiet res).1 = "" →
      ∀ args env, args.log_file = some p → p ≠ "" → env.fs = res →
        (main args env).analyzed = none := by
    intro he args env hf hp hfs
    have h1 : (resolve_log_content args env).1 = "" := by
      rw [resolve_log_content_file_fst args env p hf hp, hfs]
      cases res with
      | ok c => exact absurd rfl (h c)
      | fileNotFound => rfl
      | readError t => rfl
    unfold main
    simp [h1]
  cases res with
  | ok c => exact absurd rfl (h c)
  | fileNotFound => exact ⟨rfl, ⟨_, rfl⟩, main_part rfl⟩
  | readError t => exact ⟨rfl, ⟨_, rfl⟩, main_part rfl⟩

/-- Witness for C4 at a missing file. -/
theorem parse_log_file_failure_returns_empty_witness :
    (parse_log_file "/nonexistent.log" true ReadResult.fileNotFound).1 = "" ∧
    (∃ m, (parse_log_file "/nonexistent.log" true ReadResult.fileNotFound).2 =
      [(printerStream true, "Attempting to read log file: " ++ "/nonexistent.log"),
       (printerStream true, m)]) ∧
    (∀ args env, args.log_file = some "/nonexistent.log" →
      ("/nonexistent.log" : String) ≠ "" → env.fs = ReadResult.fileNotFound →
      (main args env).analyzed = none) :=
  parse_log_file_failure_returns_empty "/nonexistent.log" true ReadResult.fileNotFound
    (fun _ h => ReadResult.noConfusion h)

/-- C5: the Prompt Builder is deterministic and idempotent: the same log text
yields the identical message pair, which is the fixed system instruction
followed by the user message wrapping the log text in a fenced block plus the
fixed instruction sentence. -/
theorem prompt_builder_deterministic_idempotent (l1 l2 : String) (h : l1 = l2) :
    prompt_messages l1 = prompt_messages l2 ∧
    prompt_messages l1 =
      [⟨"system", system_prompt⟩,
       ⟨"user", user_prompt_head ++ l1 ++ user_prompt_tail⟩] := by
  subst h
  exact ⟨rfl, rfl⟩

/-- Witness for C5 at log text "hello". -/
theorem prompt_builder_deterministic_idempotent_witness :
    prompt_messages "hello" = prompt_messages "hello" ∧
    prompt_messages "hello" =
      [⟨"system", system_prompt⟩,
       ⟨"user", user_prompt_head ++ "hello" ++ user_prompt_tail⟩] :=
  prompt_builder_deterministic_idempotent "hello" "hello" rfl

/-- C1: in QUIET mode every run writes exactly one line to standard output:
the bare suggestion when log content was resolved, or the fixed error sentence
when no log content could be resolved; all narration goes to standard error. -/
theorem quiet_mode_single_stdout_line (args : Args) (env : Env)
    (h : args.quiet = true) :
    stdoutLines (main args env).output =
      [if (resolve_log_content args env).1 = ""
       then "Error: No log content available to analyze."
       else (analyze_logs_with_ai (resolve_log_content args env).1
               env.api_key true env.remote).suggestion] := by
  by_cases hc : (resolve_log_content args env).1 = ""
  · unfold main
    simp [hc, h, stdoutLines_append, resolve_quiet_stdoutLines args env h,
          stdoutLines]
  · unfold main
    simp [hc, h, stdoutLines_append, resolve_quiet_stdoutLines args env h,
          analyze_quiet_stdoutLines, stdoutLines]

/-- Witness for C1: with a literal log string "hello", a credential present,
and a stub remote success whose first choice content is "X", the quiet-mode
standard output is exactly the one line "X". -/
theorem quiet_mode_single_stdout_line_witness :
    stdoutLines (main ⟨none, some "hello", true⟩
      ⟨ReadResult.ok "", some "k", RemoteOutcome.success ["X"]⟩).output = ["X"] := by
  rw [quiet_mode_single_stdout_line _ _ rfl]
  decide

/-- C10: when the resolved log content is empty, `main` returns before calling
the analyzer, so the analyzer's empty-content message is never produced
through the CLI; in QUIET mode the single stdout line is the fixed error
sentence, which differs from the analyzer's empty-content message. -/
theorem empty_content_early_return (args : Args) (env : Env)
    (h : (resolve_log_content args env).1 = "") :
    (main args env).analyzed = none ∧
    (args.quiet = true →
      stdoutLines (main args env).output =
        ["Error: No log content available to analyze."]) ∧
    ("Error: No log content available to analyze." : String) ≠ empty_log_message := by
  refine ⟨?_, ?_, by decide⟩
  · unfold main
    simp [h]
  · intro hq
    unfold main
    simp [h, hq, stdoutLines_append, resolve_quiet_stdoutLines args env hq,
          stdoutLines]

/-- Witness for C10 at a quiet run whose log file is missing. -/
theorem empty_content_early_return_witness :
    (main ⟨some "/nope", none, true⟩
      ⟨ReadResult.fileNotFound, none, RemoteOutcome.success []⟩).analyzed = none ∧
    stdoutLines (main ⟨some "/nope", none, true⟩
      ⟨ReadResult.fileNotFound, none, RemoteOutcome.success []⟩).output =
      ["Error: No log content available to analyze."] := by
  have h := empty_content_early_return ⟨some "/nope", none, true⟩
    ⟨ReadResult.fileNotFound, none, RemoteOutcome.success []⟩ (by decide)
  exact ⟨h.1, h.2.1 rfl⟩

/-- C6 counterexample: giving both flags with an empty file path value makes
the run use the literal string, not the file — the file does not take
precedence and the string is not ignored, although both flags were given. -/
theorem file_precedence_counterexample :
    (resolve_log_content ⟨some "", some "hello", true⟩
      ⟨ReadResult.ok "FILE", none, RemoteOutcome.success []⟩).1 = "hello" ∧
    (parse_log_file "" true (ReadResult.ok "FILE")).1 = "FILE" ∧
    ("hello" : String) ≠ "FILE" := by
  exact ⟨rfl, rfl, by decide⟩

/-- C6 (amended): when both flags are given and the file path value is
non-empty, the file takes precedence: the resolved content is the
`parse_log_file` result, and the whole resolution ignores the literal string
argument. -/
theorem file_precedence_nonempty_path (p s1 s2 : String) (q : Bool) (env : Env)
    (hp : p ≠ "") :
    (resolve_log_content ⟨some p, some s1, q⟩ env).1 =
      (parse_log_file p q env.fs).1 ∧
    resolve_log_content ⟨some p, some s1, q⟩ env =
      resolve_log_content ⟨some p, some s2, q⟩ env := by
  constructor
  · exact resolve_log_content_file_fst ⟨some p, some s1, q⟩ env p rfl hp
  · unfold resolve_log_content
    simp [optStrTruthy_some_of_ne p hp]

/-- Witness for the amended C6 at file path "a" with strings "x" and "y". -/
theorem file_precedence_nonempty_path_witness :
    (resolve_log_content ⟨some "a", some "x", true⟩
      ⟨ReadResult.ok "F", none, RemoteOutcome.success []⟩).1 =
      (parse_log_file "a" true (ReadResult.ok "F")).1 ∧
    resolve_log_content ⟨some "a", some "x", true⟩
      ⟨ReadResult.ok "F", none, RemoteOutcome.success []⟩ =
      resolve_log_content ⟨some "a", some "y", true⟩
      ⟨ReadResult.ok "F", none, RemoteOutcome.success []⟩ :=
  file_precedence_nonempty_path "a" "x" "y" true
    ⟨ReadResult.ok "F", none, RemoteOutcome.success []⟩ (by decide)

/-- C7: each classified remote failure maps to its own stable returned string:
authentication and rate-limit failures yield fixed messages, a generic API
failure yields a message embedding its status code and message text, any other
failure yields a message embedding its description, and no two of these
branches produce the same string for any of their inputs. -/
theorem remote_failure_messages_distinct (log : String) (key : Option String)
    (quiet : Bool) (code : Nat) (msg ta tr tg tu : String)
    (hlog : log ≠ "") (hkey : optStrTruthy key = true) :
    (analyze_logs_with_ai log key quiet (RemoteOutcome.authError ta)).suggestion =
      auth_error_message ∧
    (analyze_logs_with_ai log key quiet (RemoteOutcome.rateLimitError tr)).suggestion =
      rate_limit_message ∧
    (analyze_logs_with_ai log key quiet (RemoteOutcome.apiError code msg tg)).suggestion =
      api_error_message code msg ∧
    (analyze_logs_with_ai log key quiet (RemoteOutcome.otherError tu)).suggestion =
      unexpected_error_message tu ∧
    auth_error_message ≠ rate_limit_message ∧
    auth_error_message ≠ api_error_message code msg ∧
    auth_error_message ≠ unexpected_error_message tu ∧
    rate_limit_message ≠ api_error_message code msg ∧
    rate_limit_message ≠ unexpected_error_message tu ∧
    api_error_message code msg ≠ unexpected_error_message tu := by
  have hkey' : ¬ optStrTruthy key = false := by simp [hkey]
  have hapi : strCharAt (api_error_message code msg) 21 =
      strCharAt "AI Analysis failed: An API error occurred. Status Code: " 21 := by
    unfold api_error_message
    exact strCharAt_append_left _ _ 21 (by decide)
  have hapi20 : strCharAt (api_error_message code msg) 20 =
      strCharAt "AI Analysis failed: An API error occurred. Status Code: " 20 := by
    unfold api_error_message
    exact strCharAt_append_left _ _ 20 (by decide)
  have hapi0 : strCharAt (api_error_message code msg) 0 =
      strCharAt "AI Analysis failed: An API error occurred. Status Code: " 0 := by
    unfold api_error_message
    exact strCharAt_append_left _ _ 0 (by decide)
  have hun0 : strCharAt (unexpected_error_message tu) 0 =
      strCharAt "Could not get AI suggestion due to an unexpected error: " 0 := by
    unfold unexpected_error_message
    exact strCharAt_append_left _ _ 0 (by decide)
  refine ⟨?_, ?_, ?_, ?_, by decide, ?_, ?_, ?_, ?_, ?_⟩
  · unfold analyze_logs_with_ai
    simp [hlog, hkey']
  · unfold analyze_logs_with_ai
    simp [hlog, hkey']
  · unfold analyze_logs_with_ai
    simp [hlog, hkey']
  · unfold analyze_logs_with_ai
    simp [hlog, hkey']
  · refine ne_of_strCharAt_ne _ _ 21 ?_
    rw [hapi]
    decide
  · refine ne_of_strCharAt_ne _ _ 0 ?_
    rw [hun0]
    decide
  · refine ne_of_strCharAt_ne _ _ 20 ?_
    rw [hapi20]
    decide
  · refine ne_of_strCharAt_ne _ _ 0 ?_
    rw [hun0]
    decide
  · refine ne_of_strCharAt_ne _ _ 0 ?_
    rw [hapi0, hun0]
    decide

/-- Witness for C7 at log "boom", key "k", status code 500, message "oops". -/
theorem remote_failure_messages_distinct_witness :
    (analyze_logs_with_ai "boom" (some "k") true (RemoteOutcome.authError "e")).suggestion =
      auth_error_message ∧
    (analyze_logs_with_ai "boom" (some "k") true (RemoteOutcome.rateLimitError "e")).suggestion =
      rate_limit_message ∧
    (analyze_logs_with_ai "boom" (some "k") true (RemoteOutcome.apiError 500 "oops" "e")).suggestion =
      api_error_message 500 "oops" ∧
    (analyze_logs_with_ai "boom" (some "k") true (RemoteOutcome.otherError "e")).suggestion =
      unexpected_error_message "e" ∧
    auth_error_message ≠ rate_limit_message ∧
    auth_error_message ≠ api_error_message 500 "oops" ∧
    auth_error_message ≠ unexpected_error_message "e" ∧
    rate_limit_message ≠ api_error_message 500 "oops" ∧
    rate_limit_message ≠ unexpected_error_message "e" ∧
    api_error_message 500 "oops" ≠ unexpected_error_message "e" :=
  remote_failure_messages_distinct "boom" (some "k") true 500 "oops" "e" "e" "e" "e"
    (by decide) (by decide)

/-- C8: the suggestion is always a well-defined string: for every log text,
API-key value, quiet flag and remote outcome, `analyze_logs_with_ai` returns
one of the enumerated strings (empty-content message, skipped message, the
first choice's content, or one of the classified failure messages) — no path
escapes without producing a string. -/
theorem suggestion_always_string (log : String) (key : Option String)
    (quiet : Bool) (remote : RemoteOutcome) :
    (analyze_logs_with_ai log key quiet remote).suggestion = empty_log_message ∨
    (analyze_logs_with_ai log key quiet remote).suggestion = skipped_message ∨
    (∃ c rest, remote = RemoteOutcome.success (c :: rest) ∧
      (analyze_logs_with_ai log key quiet remote).suggestion = c) ∨
    (analyze_logs_with_ai log key quiet remote).suggestion = auth_error_message ∨
    (analyze_logs_with_ai log key quiet remote).suggestion = rate_limit_message ∨
    (∃ c m, (analyze_logs_with_ai log key quiet remote).suggestion =
      api_error_message c m) ∨
    (∃ t, (analyze_logs_with_ai log key quiet remote).suggestion =
      unexpected_error_message t) := by
  by_cases h1 : log = ""
  · left
    unfold analyze_logs_with_ai
    simp [h1]
  · by_cases h2 : optStrTruthy key = false
    · right; left
      unfold analyze_logs_with_ai
      simp [h1, h2]
    · cases remote with
      | success choices =>
          cases choices with
          | nil =>
              iterate 6 right
              refine ⟨"list index out of range", ?_⟩
              unfold analyze_logs_with_ai
              simp [h1, h2]
          | cons c rest =>
              right; right; left
              refine ⟨c, rest, rfl, ?_⟩
              unfold analyze_logs_with_ai
              simp [h1, h2]
      | authError t =>
          right; right; right; left
          unfold analyze_logs_with_ai
          simp [h1, h2]
      | rateLimitError t =>
          iterate 4 right
          left
          unfold analyze_logs_with_ai
          simp [h1, h2]
      | apiError c m t =>
          iterate 5 right
          left
          refine ⟨c, m, ?_⟩
          unfold analyze_logs_with_ai
          simp [h1, h2]
      | otherError t =>
          iterate 6 right
          refine ⟨t, ?_⟩
          unfold analyze_logs_with_ai
          simp [h1, h2]

/-- C9 counterexample: in VERBOSE mode the analyzer's narration banner goes to
standard output and the final suggestion write goes to standard error, so the
final suggestion line is not written to standard output regardless of the
quiet flag, and narration is not confined to standard error. -/
theorem verbose_routing_counterexample :
    ((StdStream.stdout, "\n--- AI Log Analysis ---") ∈
      (main ⟨none, some "hello", false⟩
        ⟨ReadResult.ok "", some "k", RemoteOutcome.success ["X"]⟩).output) ∧
    (main ⟨none, some "hello", false⟩
      ⟨ReadResult.ok "", some "k", RemoteOutcome.success ["X"]⟩).output.getLast? =
      some (StdStream.stderr, "X") := by
  constructor <;> decide

/-- C9 (amended): the run always ends with the final suggestion block, whose
stream depends on the quiet flag: in QUIET mode it is the bare suggestion on
standard output; in VERBOSE mode the banner, the header and the suggestion go
to standard error, while analyzer narration goes to standard output. -/
theorem final_suggestion_routing (args : Args) (env : Env)
    (h : (resolve_log_content args env).1 ≠ "") :
    (∃ pre, (main args env).output = pre ++
      (if args.quiet
       then [(StdStream.stdout,
         (analyze_logs_with_ai (resolve_log_content args env).1
           env.api_key args.quiet env.remote).suggestion)]
       else [(StdStream.stderr, "\n--- Final Output ---"),
             (StdStream.stderr, "AI-Generated Suggestion:"),
             (StdStream.stderr,
               (analyze_logs_with_ai (resolve_log_content args env).1
                 env.api_key args.quiet env.remote).suggestion)])) ∧
    (args.quiet = false →
      (StdStream.stdout, "\n--- AI Log Analysis ---") ∈ (main args env).output) := by
  constructor
  · refine ⟨(resolve_log_content args env).2 ++
      (if optStrTruthy env.api_key = false ∧ args.quiet = false then
        [(StdStream.stderr, "Warning: OPENAI_API_KEY environment variable not set. AI analysis will be skipped or will fail.")]
       else []) ++
      (analyze_logs_with_ai (resolve_log_content args env).1
        env.api_key args.quiet env.remote).output, ?_⟩
    unfold main
    simp [h]
  · intro hq
    have hmem := analyze_verbose_header_mem (resolve_log_content args env).1
      env.api_key env.remote h
    unfold main
    simp only [h, if_neg, hq]
    simp [List.mem_append, hq]
    tauto

/-- Witness for the amended C9 at a verbose run with log string "hello". -/
theorem final_suggestion_routing_witness :
    (∃ pre, (main ⟨none, some "hello", false⟩
      ⟨ReadResult.ok "", some "k", RemoteOutcome.success ["X"]⟩).output = pre ++
      (if (false : Bool)
       then [(StdStream.stdout,
         (analyze_logs_with_ai
           (resolve_log_content ⟨none, some "hello", false⟩
             ⟨ReadResult.ok "", some "k", RemoteOutcome.success ["X"]⟩).1
           (some "k") false (RemoteOutcome.success ["X"])).suggestion)]
       else [(StdStream.stderr, "\n--- Final Output ---"),
             (StdStream.stderr, "AI-Generated Suggestion:"),
             (StdStream.stderr,
               (analyze_logs_with_ai
                 (resolve_log_content ⟨none, some "hello", false⟩
                   ⟨ReadResult.ok "", some "k", RemoteOutcome.success ["X"]⟩).1
                 (some "k") false (RemoteOutcome.success ["X"])).suggestion)])) ∧
    ((false : Bool) = false →
      (StdStream.stdout, "\n--- AI Log Analysis ---") ∈
        (main ⟨none, some "hello", false⟩
          ⟨ReadResult.ok "", some "k", RemoteOutcome.success ["X"]⟩).output) :=
  final_suggestion_routing ⟨none, some "hello", false⟩
    ⟨ReadResult.ok "", some "k", RemoteOutcome.success ["X"]⟩ (by decide)

end LogParser
